import Mathlib

/-!
Shallow embedding of `generate_data.py` from the cardiac-biv-purkinje
repository.  The script is a three-stage, file-checkpointed pipeline:

  1. mesh generation   (`cardiac_geometries.create_biv_ellipsoid`),
  2. fiber generation  (`ldrb.dolfin_ldrb` + three XDMF checkpoints),
  3. conduction-tree generation, run twice (LV and RV), using
     `meshio.read`, a cell filter on the `gmsh:physical` tag, a
     nearest-vertex argmin, `np.random.seed(1234)` and
     `generate_fractal_tree`.

The filesystem is an association list from file names to byte lists.
External libraries are modelled as an oracle record `Libs` of pure
functions (the script only parameterizes and invokes them); each
invocation of one of the three heavyweight library calls is recorded in
an event log.  Python exceptions (KeyError, IndexError, the ValueError
raised by `np.vstack` on an empty list, FileNotFoundError) are modelled
with `Except String`.  Floating-point scalars of the script are embedded
as rationals; the per-row `np.linalg.norm` followed by `argmin` is
embedded as a first-occurrence argmin over squared Euclidean distances,
which selects the same index because the square root is strictly
monotone on nonnegative numbers.
-/

/-- File contents as a byte list. -/
abbrev Bytes := List Nat

/-- A 3D coordinate, `[x, y, z]`. -/
abbrev Vec3 := ℚ × ℚ × ℚ

/-- The filesystem: an association list from file name to contents.
A write shadows earlier entries for the same name. -/
structure FS where
  files : List (String × Bytes)
deriving DecidableEq

/-- Reading a file: first entry with the given name, if any. -/
def FS.read (fs : FS) (name : String) : Option Bytes :=
  (fs.files.find? (fun p => p.1 == name)).map Prod.snd

/-- `Path.is_file` of the script: the name resolves to contents. -/
def FS.isFile (fs : FS) (name : String) : Bool :=
  (fs.read name).isSome

/-- Writing a file (create or overwrite). -/
def FS.write (fs : FS) (name : String) (b : Bytes) : FS :=
  ⟨(name, b) :: fs.files⟩

/-- Write a batch of files in order. -/
def FS.writeMany (fs : FS) (outs : List (String × Bytes)) : FS :=
  outs.foldl (fun acc p => acc.write p.1 p.2) fs

/-- The `cardiac_geometries.geometry.Geometry` object returned by
`Geometry.from_folder`: an opaque mesh handle, an opaque facet-function
handle and the named markers (each marker maps to an array whose first
entry is the region tag, as in `geo.markers["BASE"][0]`). -/
structure Geometry where
  meshHandle : Nat
  ffunHandle : Nat
  markers : List (String × List Nat)

/-- The object returned by `ldrb.dolfin_ldrb`: the three vector fields,
each modelled by the bytes its XDMF checkpoint serializes to. -/
structure LdrbSystem where
  fiber : Bytes
  sheet : Bytes
  sheet_normal : Bytes

/-- The `meshio` mesh object read from the `.msh` file: points, cell
blocks (`msh.cells[i].data`, each a list of connectivity rows), the
`gmsh:physical` cell-data arrays (one tag array per block) and
`field_data` (name to array whose first entry is the tag). -/
structure MeshioMesh where
  points : List Vec3
  cells : List (List (List Nat))
  cell_data_physical : List (List Nat)
  field_data : List (String × List Nat)

/-- The `fractal_tree.Mesh` object the script constructs. -/
structure Mesh where
  verts : List Vec3
  connectivity : List (List Nat)
  init_node : Vec3
deriving DecidableEq

/-- The `fractal_tree.FractalTreeParameters` bundle. -/
structure FractalTreeParameters where
  filename : String
  init_length : ℚ
  N_it : Nat
  length : ℚ
  initial_direction : Vec3
deriving DecidableEq

/-- The external libraries the script invokes, as pure oracles.
`generate_fractal_tree` receives the global numpy RNG state (the seed
last set) and returns the bytes of the tree file it writes. -/
structure Libs where
  create_biv_ellipsoid : ℚ → List (String × ℚ) → List (String × Bytes)
  from_folder : FS → Geometry
  dolfin_ldrb : Nat → Nat → String → List (String × Nat) → List ℚ → LdrbSystem
  readMesh : Bytes → MeshioMesh
  generate_fractal_tree : Mesh → FractalTreeParameters → Option Nat → Bytes

/-- One recorded external-library invocation or RNG seeding. -/
inductive Event where
  | createMesh (charLength : ℚ) (shapeParams : List (String × ℚ))
  | runLdrb (fiberSpace : String) (markers : List (String × Nat)) (angles : List ℚ)
  | npSeed (n : Nat)
  | growTree (filename : String) (rng : Option Nat)
deriving DecidableEq

/-- The script state: filesystem, numpy global RNG seed, event log. -/
structure St where
  fs : FS
  rng : Option Nat
  log : List Event
deriving DecidableEq

instance {ε α : Type} [DecidableEq ε] [DecidableEq α] : DecidableEq (Except ε α) := fun a b =>
  match a, b with
  | .error e1, .error e2 =>
    if h : e1 = e2 then .isTrue (by rw [h]) else .isFalse (fun hc => h (Except.error.inj hc))
  | .error _, .ok _ => .isFalse (fun hc => Except.noConfusion hc)
  | .ok _, .error _ => .isFalse (fun hc => Except.noConfusion hc)
  | .ok a1, .ok a2 =>
    if h : a1 = a2 then .isTrue (by rw [h]) else .isFalse (fun hc => h (Except.ok.inj hc))

/-- Python dictionary lookup, raising `KeyError` when absent. -/
def dictGet (d : List (String × List Nat)) (k : String) : Except String (List Nat) :=
  match d.find? (fun p => p.1 == k) with
  | none => .error ("KeyError: " ++ k)
  | some p => .ok p.2

/-- Indexing `arr[0]`, raising `IndexError` on an empty array. -/
def firstEntry (l : List Nat) : Except String Nat :=
  match l.head? with
  | none => .error "IndexError: index 0 is out of bounds"
  | some t => .ok t

-- File names used by the script (all under the `data` directory).

def mshFileName : String := "data/biv_ellipsoid.msh"

def fiberFileName : String := "data/fiber.xdmf"

def sheetFileName : String := "data/sheet.xdmf"

def sheetNormalFileName : String := "data/sheet_normal.xdmf"

def lvTreeFileName : String := "data/lv_tree.vtu"

def rvTreeFileName : String := "data/rv_tree.vtu"

/-- The characteristic length passed to `create_biv_ellipsoid`. -/
def meshCharLength : ℚ := 2/10

/-- The geometric shape parameters the script passes, by keyword, to
`create_biv_ellipsoid` (lines 30-45 of the source). -/
def meshShapeParams : List (String × ℚ) :=
  [("center_lv_y", 2/10), ("center_lv_z", 0),
   ("a_endo_lv", 5), ("b_endo_lv", 22/10), ("c_endo_lv", 22/10),
   ("a_epi_lv", 6), ("b_epi_lv", 3), ("c_epi_lv", 3),
   ("center_rv_y", 1), ("center_rv_z", 0),
   ("a_endo_rv", 6), ("b_endo_rv", 25/10), ("c_endo_rv", 27/10),
   ("a_epi_rv", 8), ("b_epi_rv", 55/10), ("c_epi_rv", 4)]

/-- Stage 1: create the mesh unless `data/biv_ellipsoid.msh` exists. -/
def meshStage (libs : Libs) (s : St) : St :=
  if s.fs.isFile mshFileName then s
  else
    let outs := libs.create_biv_ellipsoid meshCharLength meshShapeParams
    { fs := s.fs.writeMany outs,
      rng := s.rng,
      log := s.log ++ [Event.createMesh meshCharLength meshShapeParams] }

/-- The four fixed angle parameters of the `dolfin_ldrb` call:
`alpha_endo_lv = 60`, `alpha_epi_lv = -60`, `beta_endo_lv = 0`,
`beta_epi_lv = 0`. -/
def ldrbAngles : List ℚ := [60, -60, 0, 0]

/-- The marker lookup `geo.markers[name][0]` of the fiber stage. -/
def lookupMarker (geo : Geometry) (name : String) : Except String Nat :=
  match dictGet geo.markers name with
  | .error e => .error e
  | .ok arr => firstEntry arr

/-- Stage 2: compute and checkpoint fiber, sheet and sheet-normal
fields unless `data/fiber.xdmf` exists (the guard tests only the fiber
file). -/
def fiberStage (libs : Libs) (s : St) : Except String St :=
  if s.fs.isFile fiberFileName then .ok s
  else
    let geo := libs.from_folder s.fs
    match lookupMarker geo "BASE" with
    | .error e => .error e
    | .ok base =>
    match lookupMarker geo "ENDO_LV" with
    | .error e => .error e
    | .ok lv =>
    match lookupMarker geo "ENDO_RV" with
    | .error e => .error e
    | .ok rv =>
    match lookupMarker geo "EPI" with
    | .error e => .error e
    | .ok epi =>
      let ldrbMarkers := [("base", base), ("lv", lv), ("rv", rv), ("epi", epi)]
      let system := libs.dolfin_ldrb geo.meshHandle geo.ffunHandle "P_1" ldrbMarkers ldrbAngles
      .ok { fs := ((s.fs.write fiberFileName system.fiber).write
                      sheetFileName system.sheet).write
                      sheetNormalFileName system.sheet_normal,
            rng := s.rng,
            log := s.log ++ [Event.runLdrb "P_1" ldrbMarkers ldrbAngles] }

/-- The list comprehension
`[i for i, x in enumerate(cell_data) if x[0] == tag]`, with the
`IndexError` that `x[0]` raises on an empty tag array.  `i` is the
index of the first remaining block. -/
def filterByTag : List (List Nat) → Nat → Nat → Except String (List Nat)
  | [], _, _ => .ok []
  | x :: rest, tag, i =>
    match x.head? with
    | none => .error "IndexError: index 0 is out of bounds"
    | some t =>
      match filterByTag rest tag (i + 1) with
      | .error e => .error e
      | .ok tl => .ok (if t = tag then i :: tl else tl)

/-- The gather `[msh.cells[i].data for i in inds]`, with the
`IndexError` an out-of-range block index raises. -/
def gatherBlocks : List (List (List Nat)) → List Nat → Except String (List (List (List Nat)))
  | _, [] => .ok []
  | cells, i :: rest =>
    match cells[i]? with
    | none => .error "IndexError: cells"
    | some c =>
      match gatherBlocks cells rest with
      | .error e => .error e
      | .ok tl => .ok (c :: tl)

/-- `np.vstack`: concatenates the rows of the blocks, raising
`ValueError` on an empty list of arrays. -/
def vstack (blocks : List (List (List Nat))) : Except String (List (List Nat)) :=
  match blocks with
  | [] => .error "ValueError: need at least one array to concatenate"
  | _ => .ok blocks.flatten

/-- Lines 95-97 (resp. 140-142) of the source: look up the region tag
in `field_data`, filter the cell blocks whose leading `gmsh:physical`
tag equals it, and stack the selected connectivity rows. -/
def extractConnectivity (msh : MeshioMesh) (fieldName : String) : Except String (List (List Nat)) :=
  match dictGet msh.field_data fieldName with
  | .error e => .error e
  | .ok arr =>
  match firstEntry arr with
  | .error e => .error e
  | .ok tag =>
  match filterByTag msh.cell_data_physical tag 0 with
  | .error e => .error e
  | .ok inds =>
  match gatherBlocks msh.cells inds with
  | .error e => .error e
  | .ok blocks => vstack blocks

/-- Squared Euclidean distance between two points. -/
def dist2 (a b : Vec3) : ℚ :=
  (a.1 - b.1) ^ 2 + (a.2.1 - b.2.1) ^ 2 + (a.2.2 - b.2.2) ^ 2

/-- First-occurrence argmin of a list together with its minimum value;
`none` exactly on the empty list (where `np.argmin` raises). -/
def argminPair : List ℚ → Option (Nat × ℚ)
  | [] => none
  | x :: xs =>
    match argminPair xs with
    | none => some (0, x)
    | some (j, m) => if m < x then some (j + 1, m) else some (0, x)

/-- Lines 105-106 of the source:
`np.linalg.norm(np.subtract(verts, init_node), axis=1).argmin()`,
embedded over squared distances (the square root is strictly monotone,
so the first index of the minimum is unchanged). -/
def nearestVertexIndex (verts : List Vec3) (p : Vec3) : Option Nat :=
  (argminPair (verts.map (fun v => dist2 v p))).map Prod.fst

/-- The per-ventricle hardcoded inputs of a conduction-tree stage. -/
structure TreeConfig where
  treeFile : String
  fieldName : String
  initNode : Vec3
  param : FractalTreeParameters
deriving DecidableEq

/-- The LV conduction-tree inputs (lines 89-127 of the source). -/
def lvConfig : TreeConfig :=
  { treeFile := lvTreeFileName,
    fieldName := "ENDO_LV",
    initNode := (0, 234484/100000, 19/100),
    param := { filename := "data/lv_tree", init_length := 7, N_it := 12,
               length := 1/2, initial_direction := (1, 0, 0) } }

/-- The RV conduction-tree inputs (lines 135-161 of the source). -/
def rvConfig : TreeConfig :=
  { treeFile := rvTreeFileName,
    fieldName := "ENDO_RV",
    initNode := (0, 319/100, 19/100),
    param := { filename := "data/rv_tree", init_length := 97/10, N_it := 15,
               length := 1/2, initial_direction := (1, 0, 0) } }

/-- The pure computation of a conduction-tree stage on the bytes of the
mesh file: parse, extract the endocardial connectivity, find the vertex
nearest to the hardcoded seed coordinate, and invoke the growth
algorithm with the global RNG freshly seeded to 1234. -/
def treeCompute (libs : Libs) (cfg : TreeConfig) (mshBytes : Bytes) : Except String Bytes :=
  let msh := libs.readMesh mshBytes
  match extractConnectivity msh cfg.fieldName with
  | .error e => .error e
  | .ok connectivity =>
    let verts := msh.points
    match nearestVertexIndex verts cfg.initNode with
    | none => .error "ValueError: attempt to get argmin of an empty sequence"
    | some index =>
      match verts[index]? with
      | none => .error "IndexError: verts"
      | some v =>
        .ok (libs.generate_fractal_tree
              { verts := verts, connectivity := connectivity, init_node := v }
              cfg.param (some 1234))

/-- Stage 3/4: grow a conduction tree unless the ventricle's tree file
exists.  `generate_fractal_tree` itself persists the tree to
`param.filename + ".vtu"`; the RNG is seeded with 1234 immediately
before the growth call. -/
def treeStage (libs : Libs) (cfg : TreeConfig) (s : St) : Except String St :=
  if s.fs.isFile cfg.treeFile then .ok s
  else
    match s.fs.read mshFileName with
    | none => .error "FileNotFoundError: data/biv_ellipsoid.msh"
    | some b =>
      match treeCompute libs cfg b with
      | .error e => .error e
      | .ok treeBytes =>
        .ok { fs := s.fs.write (cfg.param.filename ++ ".vtu") treeBytes,
              rng := some 1234,
              log := s.log ++ [Event.npSeed 1234,
                               Event.growTree cfg.param.filename (some 1234)] }

/-- The whole script: the four guarded stages in order; any error
propagates and terminates the run. -/
def runScript (libs : Libs) (fs : FS) : Except String St :=
  let s1 := meshStage libs { fs := fs, rng := none, log := [] }
  match fiberStage libs s1 with
  | .error e => .error e
  | .ok s2 =>
    match treeStage libs lvConfig s2 with
    | .error e => .error e
    | .ok s3 => treeStage libs rvConfig s3

-- Concrete objects shared by the witnesses.

/-- The block-level selection the code implements, stated
independently of the index-based filtering/gathering/stacking code:
the rows of exactly those cell blocks whose leading per-cell tag
(`x[0]`) equals the given tag, in block order.  Every cell of a
selected block is included, whatever its own per-cell tag. -/
def specMatchingConnectivity (msh : MeshioMesh) (tag : Nat) : List (List Nat) :=
  ((msh.cell_data_physical.zip msh.cells).filterMap
    (fun p => if p.1.head? = some tag then some p.2 else none)).flatten

/-- The per-cell selection the claim describes: each block's rows
paired with the block's per-cell tag array, keeping exactly the cells
whose own tag equals the given tag. -/
def specPerCellConnectivity (msh : MeshioMesh) (tag : Nat) : List (List Nat) :=
  ((msh.cell_data_physical.zip msh.cells).map
    (fun p => (p.2.zip p.1).filterMap
      (fun rc => if rc.2 = tag then some rc.1 else none))).flatten

/-- A mesh with a tag-heterogeneous cell block: the per-cell tags of
the single block are `[20, 99]`, but the code tests only the leading
tag. -/
def mshHet : MeshioMesh :=
  { points := [(0, 0, 0)],
    cells := [[[0, 1, 2], [3, 4, 5]]],
    cell_data_physical := [[20, 99]],
    field_data := [("ENDO_LV", [20, 2])] }

/-- A tiny concrete `.msh` byte content. -/
def mshBytes0 : Bytes := [0]

/-- A tiny concrete meshio mesh on which both tree stages succeed:
block 0 is the LV endocardium (tag 20), block 1 the RV endocardium
(tag 30).  A single vertex keeps the argmin comparison-free. -/
def msh0 : MeshioMesh :=
  { points := [(0, 0, 0)],
    cells := [[[0, 1, 2]], [[3, 4, 5]]],
    cell_data_physical := [[20], [30]],
    field_data := [("ENDO_LV", [20, 2]), ("ENDO_RV", [30, 2])] }

/-- Concrete oracles for the external libraries. -/
def libs0 : Libs :=
  { create_biv_ellipsoid := fun _ _ => [(mshFileName, mshBytes0)],
    from_folder := fun _ =>
      { meshHandle := 0, ffunHandle := 0,
        markers := [("BASE", [10, 2]), ("ENDO_LV", [20, 2]),
                    ("ENDO_RV", [30, 2]), ("EPI", [40, 2])] },
    dolfin_ldrb := fun _ _ _ _ _ => { fiber := [1], sheet := [2], sheet_normal := [3] },
    readMesh := fun _ => msh0,
    generate_fractal_tree := fun _ _ _ => [7] }

/-- A filesystem on which all four checkpoint files exist. -/
def fsAll : FS :=
  ⟨[(mshFileName, mshBytes0), (fiberFileName, [1]),
    (lvTreeFileName, [9]), (rvTreeFileName, [9])]⟩

/-- A filesystem holding only the mesh file. -/
def fsMshOnly : FS := ⟨[(mshFileName, mshBytes0)]⟩

/-- The initial state over `fsMshOnly`. -/
def stMshOnly : St := { fs := fsMshOnly, rng := none, log := [] }

/-- The state the LV tree stage produces from `stMshOnly` with the
concrete oracles `libs0`. -/
def tLV : St :=
  { fs := ⟨[("data/lv_tree.vtu", [7]), (mshFileName, mshBytes0)]⟩,
    rng := some 1234,
    log := [Event.npSeed 1234, Event.growTree "data/lv_tree" (some 1234)] }

/-- The state the fiber stage produces from `stMshOnly` with the
concrete oracles `libs0`. -/
def tFib : St :=
  { fs := ⟨[(sheetNormalFileName, [3]), (sheetFileName, [2]),
            (fiberFileName, [1]), (mshFileName, mshBytes0)]⟩,
    rng := none,
    log := [Event.runLdrb "P_1"
              [("base", 10), ("lv", 20), ("rv", 30), ("epi", 40)] ldrbAngles] }

/-- A concrete mesh in which the `ENDO_LV` tag (20) matches no cell
block. -/
def mshNoMatch : MeshioMesh :=
  { points := [(0, 0, 0)],
    cells := [[[0, 1, 2]]],
    cell_data_physical := [[99]],
    field_data := [("ENDO_LV", [20, 2])] }

/-- Oracles whose mesh reader returns `mshNoMatch`. -/
def libsNoMatch : Libs := { libs0 with readMesh := fun _ => mshNoMatch }

/-- A one-vertex list and a seed used by the C6 witness. -/
def vertsW : List Vec3 := [(0, 0, 0)]

/-- The seed coordinate used by the C6 witness. -/
def seedW : Vec3 := (0, 0, 0)

/-- A two-vertex list for the C7 counterexample. -/
def vertsA : List Vec3 := [(1, 0, 0), (0, 0, 0)]

/-- The same two vertices in the other order. -/
def vertsB : List Vec3 := [(0, 0, 0), (1, 0, 0)]

/-- The empty-directory initial state. -/
def stEmpty : St := { fs := ⟨[]⟩, rng := none, log := [] }

/-- A filesystem with every output file except the LV tree. -/
def fsNoLv : FS :=
  ⟨[(mshFileName, mshBytes0), (fiberFileName, [1]), (sheetFileName, [2]),
    (sheetNormalFileName, [3]), (rvTreeFileName, [9])]⟩

/-- The final state of a run on `fsNoLv` with the concrete oracles. -/
def s3NoLv : St :=
  { fs := ⟨[("data/lv_tree.vtu", [7]), (mshFileName, mshBytes0), (fiberFileName, [1]),
            (sheetFileName, [2]), (sheetNormalFileName, [3]), (rvTreeFileName, [9])]⟩,
    rng := some 1234,
    log := [Event.npSeed 1234, Event.growTree "data/lv_tree" (some 1234)] }

/-- A filesystem with the mesh and fiber files but neither tree. -/
def fs1NoTrees : FS := ⟨[(mshFileName, mshBytes0), (fiberFileName, [1])]⟩

/-- The same filesystem with the LV tree already present. -/
def fs2LvOnly : FS :=
  ⟨[(mshFileName, mshBytes0), (fiberFileName, [1]), (lvTreeFileName, [9])]⟩

/-- The final state of a run on `fs1NoTrees` (both tree stages run). -/
def u1Both : St :=
  { fs := ⟨[("data/rv_tree.vtu", [7]), ("data/lv_tree.vtu", [7]),
            (mshFileName, mshBytes0), (fiberFileName, [1])]⟩,
    rng := some 1234,
    log := [Event.npSeed 1234, Event.growTree "data/lv_tree" (some 1234),
            Event.npSeed 1234, Event.growTree "data/rv_tree" (some 1234)] }

/-- The final state of a run on `fs2LvOnly` (only the RV stage runs). -/
def u2RvOnly : St :=
  { fs := ⟨[("data/rv_tree.vtu", [7]), (mshFileName, mshBytes0),
            (fiberFileName, [1]), (lvTreeFileName, [9])]⟩,
    rng := some 1234,
    log := [Event.npSeed 1234, Event.growTree "data/rv_tree" (some 1234)] }

-- Basic filesystem lemmas.

theorem FS.read_write_self (fs : FS) (n : String) (b : Bytes) :
    (fs.write n b).read n = some b := by
  simp [FS.read, FS.write, List.find?]

theorem FS.read_write_ne (fs : FS) (n m : String) (b : Bytes) (h : m ≠ n) :
    (fs.write n b).read m = fs.read m := by
  have hne : (n == m) = false := by simp [Ne.symm h]
  simp [FS.read, FS.write, List.find?, hne]

theorem FS.isFile_write_self (fs : FS) (n : String) (b : Bytes) :
    (fs.write n b).isFile n = true := by
  simp [FS.isFile, FS.read_write_self]

theorem FS.isFile_write_ne (fs : FS) (n m : String) (b : Bytes) (h : m ≠ n) :
    (fs.write n b).isFile m = fs.isFile m := by
  simp [FS.isFile, FS.read_write_ne fs n m b h]

-- First-occurrence argmin lemmas.

theorem argminPair_eq_none_iff (l : List ℚ) : argminPair l = none ↔ l = [] := by
  cases l with
  | nil => simp [argminPair]
  | cons x xs =>
    simp only [argminPair]
    constructor
    · intro h
      cases hx : argminPair xs with
      | none => rw [hx] at h; simp at h
      | some p =>
        obtain ⟨j, m⟩ := p
        rw [hx] at h
        by_cases hlt : m < x <;> simp [hlt] at h
    · intro h; cases h

theorem argminPair_spec (l : List ℚ) (j : Nat) (m : ℚ)
    (h : argminPair l = some (j, m)) :
    ∃ hj : j < l.length, l.get ⟨j, hj⟩ = m ∧ ∀ x ∈ l, m ≤ x := by
  induction l generalizing j m with
  | nil => simp [argminPair] at h
  | cons x xs ih =>
    rw [argminPair] at h
    cases hx : argminPair xs with
    | none =>
      rw [hx] at h
      have hxs : xs = [] := (argminPair_eq_none_iff xs).mp hx
      subst hxs
      simp at h
      obtain ⟨hj, hm⟩ := h
      subst hj; subst hm
      exact ⟨by simp, by simp, by simp⟩
    | some p =>
      obtain ⟨j2, m2⟩ := p
      rw [hx] at h
      obtain ⟨hj2, hget2, hall2⟩ := ih j2 m2 hx
      by_cases hlt : m2 < x
      · simp [hlt] at h
        obtain ⟨hj, hm⟩ := h
        subst hj; subst hm
        refine ⟨by simpa using Nat.succ_lt_succ hj2, by simpa using hget2, ?_⟩
        intro y hy
        rcases List.mem_cons.mp hy with hy | hy
        · exact hy ▸ le_of_lt hlt
        · exact hall2 y hy
      · simp [hlt] at h
        obtain ⟨hj, hm⟩ := h
        subst hj; subst hm
        refine ⟨by simp, by simp, ?_⟩
        intro y hy
        rcases List.mem_cons.mp hy with hy | hy
        · exact hy ▸ le_refl _
        · exact le_trans (not_lt.mp hlt) (hall2 y hy)

theorem nearestVertexIndex_spec (verts : List Vec3) (p : Vec3) (i : Nat)
    (h : nearestVertexIndex verts p = some i) :
    ∃ hi : i < verts.length, ∀ k : Fin verts.length,
      dist2 (verts.get ⟨i, hi⟩) p ≤ dist2 (verts.get k) p := by
  rw [nearestVertexIndex] at h
  cases hx : argminPair (verts.map (fun v => dist2 v p)) with
  | none => rw [hx] at h; simp at h
  | some pr =>
    obtain ⟨j, m⟩ := pr
    rw [hx] at h
    simp at h
    subst h
    obtain ⟨hj, hget, hall⟩ := argminPair_spec _ _ _ hx
    rw [List.length_map] at hj
    refine ⟨hj, fun k => ?_⟩
    have h1 : dist2 (verts.get ⟨j, hj⟩) p = m := by
      rw [← hget]
      simp
    have h2 : dist2 (verts.get k) p ∈ verts.map (fun v => dist2 v p) :=
      List.mem_map_of_mem _ (verts.get_mem k.1 k.2)
    rw [h1]
    exact hall _ h2

-- Stage skip/run lemmas.

theorem meshStage_skip (libs : Libs) (s : St) (h : s.fs.isFile mshFileName = true) :
    meshStage libs s = s := by
  simp [meshStage, h]

theorem fiberStage_skip (libs : Libs) (s : St) (h : s.fs.isFile fiberFileName = true) :
    fiberStage libs s = .ok s := by
  simp [fiberStage, h]

theorem treeStage_skip (libs : Libs) (cfg : TreeConfig) (s : St)
    (h : s.fs.isFile cfg.treeFile = true) :
    treeStage libs cfg s = .ok s := by
  simp [treeStage, h]

theorem treeStage_run (libs : Libs) (cfg : TreeConfig) (s : St) (b tb : Bytes)
    (h : s.fs.isFile cfg.treeFile = false)
    (hb : s.fs.read mshFileName = some b)
    (hc : treeCompute libs cfg b = .ok tb) :
    treeStage libs cfg s =
      .ok { fs := s.fs.write (cfg.param.filename ++ ".vtu") tb,
            rng := some 1234,
            log := s.log ++ [Event.npSeed 1234,
                             Event.growTree cfg.param.filename (some 1234)] } := by
  simp [treeStage, h, hb, hc]

theorem treeStage_run_inv (libs : Libs) (cfg : TreeConfig) (s t : St)
    (h : s.fs.isFile cfg.treeFile = false)
    (ht : treeStage libs cfg s = .ok t) :
    ∃ b tb, s.fs.read mshFileName = some b ∧ treeCompute libs cfg b = .ok tb ∧
      t = { fs := s.fs.write (cfg.param.filename ++ ".vtu") tb,
            rng := some 1234,
            log := s.log ++ [Event.npSeed 1234,
                             Event.growTree cfg.param.filename (some 1234)] } := by
  cases hb : s.fs.read mshFileName with
  | none => simp [treeStage, h, hb] at ht
  | some b =>
    cases hc : treeCompute libs cfg b with
    | error e => simp [treeStage, h, hb, hc] at ht
    | ok tb =>
      simp only [treeStage, h, Bool.false_eq_true, if_false, hb, hc,
                 Except.ok.injEq] at ht
      exact ⟨b, tb, rfl, hc, ht.symm⟩

-- Characterization of the cell filter (claim C4) and its empty-selection
-- failure (claim C5).

theorem filterGather_spec (cells : List (List (List Nat))) (tag : Nat) :
    ∀ (cd : List (List Nat)) (i : Nat) (inds : List Nat) (blocks : List (List (List Nat))),
      filterByTag cd tag i = .ok inds →
      gatherBlocks cells inds = .ok blocks →
      blocks = (cd.zip (cells.drop i)).filterMap
        (fun p => if p.1.head? = some tag then some p.2 else none) := by
  intro cd
  induction cd with
  | nil =>
    intro i inds blocks hf hg
    simp [filterByTag] at hf
    subst hf
    simp [gatherBlocks] at hg
    subst hg
    simp
  | cons x rest ih =>
    intro i inds blocks hf hg
    rw [filterByTag] at hf
    cases hx : x.head? with
    | none => rw [hx] at hf; exact absurd hf (by simp)
    | some t =>
      rw [hx] at hf
      cases hrest : filterByTag rest tag (i + 1) with
      | error e => rw [hrest] at hf; exact absurd hf (by simp)
      | ok tl =>
        rw [hrest] at hf
        simp only [Except.ok.injEq] at hf
        by_cases htag : t = tag
        · rw [if_pos htag] at hf
          subst hf
          rw [gatherBlocks] at hg
          cases hci : cells[i]? with
          | none => rw [hci] at hg; exact absurd hg (by simp)
          | some c =>
            rw [hci] at hg
            cases hg2 : gatherBlocks cells tl with
            | error e => rw [hg2] at hg; exact absurd hg (by simp)
            | ok tl2 =>
              rw [hg2] at hg
              simp only [Except.ok.injEq] at hg
              subst hg
              have hil : i < cells.length := by
                by_contra hc2
                rw [List.getElem?_eq_none (Nat.le_of_not_lt hc2)] at hci
                exact absurd hci (by simp)
              have hdrop : cells.drop i = c :: cells.drop (i + 1) := by
                rw [List.drop_eq_getElem_cons hil]
                have : cells[i] = c := by
                  have := List.getElem?_eq_getElem hil
                  rw [this] at hci
                  exact (Option.some.injEq _ _).mp hci
                rw [this]
              rw [hdrop, List.zip_cons_cons, List.filterMap_cons,
                  ih (i + 1) tl tl2 hrest hg2]
              simp [hx, htag]
        · rw [if_neg htag] at hf
          subst hf
          have hmain := ih (i + 1) tl blocks hrest hg
          have hstep : cells.drop (i + 1) = (cells.drop i).drop 1 := by
            rw [List.drop_drop, Nat.add_comm]
          cases hd : cells.drop i with
          | nil =>
            have hd1 : cells.drop (i + 1) = [] := by
              rw [hstep, hd]
              rfl
            rw [hd1] at hmain
            simp at hmain
            simp [hmain]
          | cons c cs =>
            have hd1 : cells.drop (i + 1) = cs := by
              rw [hstep, hd]
              rfl
            rw [hd1] at hmain
            rw [List.zip_cons_cons, List.filterMap_cons]
            simp only [hx, Option.some.injEq]
            rw [if_neg htag]
            exact hmain

theorem extractConnectivity_spec (msh : MeshioMesh) (name : String)
    (arr : List Nat) (tag : Nat) (conn : List (List Nat))
    (hfd : dictGet msh.field_data name = .ok arr)
    (h0 : arr.head? = some tag)
    (hok : extractConnectivity msh name = .ok conn) :
    conn = specMatchingConnectivity msh tag := by
  cases hf : filterByTag msh.cell_data_physical tag 0 with
  | error e => simp [extractConnectivity, hfd, firstEntry, h0, hf] at hok
  | ok inds =>
    cases hg : gatherBlocks msh.cells inds with
    | error e => simp [extractConnectivity, hfd, firstEntry, h0, hf, hg] at hok
    | ok blocks =>
      have hchar := filterGather_spec msh.cells tag msh.cell_data_physical 0 inds blocks hf hg
      simp only [List.drop_zero] at hchar
      cases blocks with
      | nil => simp [extractConnectivity, hfd, firstEntry, h0, hf, hg, vstack] at hok
      | cons b bs =>
        simp only [extractConnectivity, hfd, firstEntry, h0, hf, hg, vstack,
                   Except.ok.injEq] at hok
        rw [← hok, specMatchingConnectivity, ← hchar]

theorem filterByTag_no_match (cd : List (List Nat)) (tag : Nat) :
    (∀ x ∈ cd, x.head? ≠ some tag) → ∀ i,
      filterByTag cd tag i = .ok [] ∨ ∃ e, filterByTag cd tag i = .error e := by
  induction cd with
  | nil => intro h i; left; rfl
  | cons x rest ih =>
    intro h i
    rw [filterByTag]
    cases hx : x.head? with
    | none => right; exact ⟨_, rfl⟩
    | some t =>
      have hne : ¬ t = tag := by
        intro hEq
        exact h x (List.mem_cons_self x rest) (by rw [hx, hEq])
      rcases ih (fun y hy => h y (List.mem_cons_of_mem x hy)) (i + 1) with hok | ⟨e, he⟩
      · rw [hok]; left; simp [hne]
      · rw [he]; right; exact ⟨e, rfl⟩

theorem extractConnectivity_no_match_error (msh : MeshioMesh) (name : String)
    (arr : List Nat) (tag : Nat)
    (hfd : dictGet msh.field_data name = .ok arr)
    (h0 : arr.head? = some tag)
    (hnone : ∀ x ∈ msh.cell_data_physical, x.head? ≠ some tag) :
    ∃ e, extractConnectivity msh name = .error e := by
  rcases filterByTag_no_match msh.cell_data_physical tag hnone 0 with hok | ⟨e, he⟩
  · exact ⟨"ValueError: need at least one array to concatenate",
      by simp [extractConnectivity, hfd, firstEntry, h0, hok, gatherBlocks, vstack]⟩
  · exact ⟨e, by simp [extractConnectivity, hfd, firstEntry, h0, he]⟩

-- Shared concrete objects used by the witnesses.

/-- Claim C1: when all four checkpoint files exist, the run performs no
external library call (the event log stays empty) and the filesystem is
returned unchanged, so every file in the data directory is left
byte-identical. -/
theorem run_skip_all_no_calls (libs : Libs) (fs : FS)
    (h1 : fs.isFile mshFileName = true) (h2 : fs.isFile fiberFileName = true)
    (h3 : fs.isFile lvTreeFileName = true) (h4 : fs.isFile rvTreeFileName = true) :
    runScript libs fs = .ok { fs := fs, rng := none, log := [] } := by
  have e1 := meshStage_skip libs { fs := fs, rng := none, log := [] } h1
  have e2 := fiberStage_skip libs { fs := fs, rng := none, log := [] } h2
  have e3 := treeStage_skip libs lvConfig { fs := fs, rng := none, log := [] } h3
  have e4 := treeStage_skip libs rvConfig { fs := fs, rng := none, log := [] } h4
  simp only [runScript, e1, e2, e3, e4]

/-- Witness for C1 at a concrete filesystem and concrete oracles. -/
theorem run_skip_all_no_calls_witness :
    fsAll.isFile mshFileName = true ∧ fsAll.isFile fiberFileName = true ∧
    fsAll.isFile lvTreeFileName = true ∧ fsAll.isFile rvTreeFileName = true ∧
    runScript libs0 fsAll = .ok { fs := fsAll, rng := none, log := [] } :=
  ⟨by decide, by decide, by decide, by decide,
   run_skip_all_no_calls libs0 fsAll (by decide) (by decide) (by decide) (by decide)⟩

theorem fiberStage_run_inv (libs : Libs) (s t : St)
    (h : s.fs.isFile fiberFileName = false)
    (ht : fiberStage libs s = .ok t) :
    ∃ fiberB sheetB sheetNormalB : Bytes, ∃ mk : List (String × Nat),
      t = { fs := ((s.fs.write fiberFileName fiberB).write
                      sheetFileName sheetB).write
                      sheetNormalFileName sheetNormalB,
            rng := s.rng,
            log := s.log ++ [Event.runLdrb "P_1" mk ldrbAngles] } := by
  cases hB : lookupMarker (libs.from_folder s.fs) "BASE" with
  | error e => simp [fiberStage, h, hB] at ht
  | ok base =>
  cases hL : lookupMarker (libs.from_folder s.fs) "ENDO_LV" with
  | error e => simp [fiberStage, h, hB, hL] at ht
  | ok lv =>
  cases hR : lookupMarker (libs.from_folder s.fs) "ENDO_RV" with
  | error e => simp [fiberStage, h, hB, hL, hR] at ht
  | ok rv =>
  cases hE : lookupMarker (libs.from_folder s.fs) "EPI" with
  | error e => simp [fiberStage, h, hB, hL, hR, hE] at ht
  | ok epi =>
    simp only [fiberStage, h, Bool.false_eq_true, if_false, hB, hL, hR, hE,
               Except.ok.injEq] at ht
    exact ⟨_, _, _, _, ht.symm⟩

/-- Claim C2: two runs of a conduction-tree stage that regenerate the
tree from the same mesh bytes and the same hardcoded inputs both seed
the RNG with the fixed value 1234 immediately before the growth call
(the two events are adjacent at the end of the log), and the
regenerated tree file is bit-for-bit identical across the two runs. -/
theorem tree_stage_seeded_deterministic (libs : Libs) (cfg : TreeConfig)
    (s1 s2 t1 t2 : St)
    (hm : s1.fs.read mshFileName = s2.fs.read mshFileName)
    (h1 : s1.fs.isFile cfg.treeFile = false)
    (h2 : s2.fs.isFile cfg.treeFile = false)
    (e1 : treeStage libs cfg s1 = .ok t1)
    (e2 : treeStage libs cfg s2 = .ok t2) :
    t1.log = s1.log ++ [Event.npSeed 1234,
                        Event.growTree cfg.param.filename (some 1234)] ∧
    t2.log = s2.log ++ [Event.npSeed 1234,
                        Event.growTree cfg.param.filename (some 1234)] ∧
    t1.fs.read (cfg.param.filename ++ ".vtu") =
      t2.fs.read (cfg.param.filename ++ ".vtu") := by
  obtain ⟨b1, tb1, hb1, hc1, ht1⟩ := treeStage_run_inv libs cfg s1 t1 h1 e1
  obtain ⟨b2, tb2, hb2, hc2, ht2⟩ := treeStage_run_inv libs cfg s2 t2 h2 e2
  have hbb : b1 = b2 := by
    rw [hb1, hb2] at hm
    exact Option.some.inj hm
  subst hbb
  have htb : tb1 = tb2 := by
    rw [hc1] at hc2
    exact Except.ok.inj hc2
  subst ht1
  subst ht2
  refine ⟨rfl, rfl, ?_⟩
  rw [FS.read_write_self, FS.read_write_self, htb]

/-- Witness for C2 at concrete states and oracles. -/
theorem tree_stage_seeded_deterministic_witness :
    stMshOnly.fs.isFile lvConfig.treeFile = false ∧
    treeStage libs0 lvConfig stMshOnly = .ok tLV ∧
    (tLV.log = stMshOnly.log ++ [Event.npSeed 1234,
                          Event.growTree lvConfig.param.filename (some 1234)] ∧
     tLV.log = stMshOnly.log ++ [Event.npSeed 1234,
                          Event.growTree lvConfig.param.filename (some 1234)] ∧
     tLV.fs.read (lvConfig.param.filename ++ ".vtu") =
       tLV.fs.read (lvConfig.param.filename ++ ".vtu")) :=
  ⟨by decide, by decide,
   tree_stage_seeded_deterministic libs0 lvConfig stMshOnly stMshOnly tLV tLV rfl
     (by decide) (by decide) (by decide) (by decide)⟩

/-- Claim C3: given a successful fiber stage, the sheet and
sheet-normal checkpoints are written if and only if `data/fiber.xdmf`
was missing at the start of the stage: when it was missing, all three
of fiber, sheet and sheet-normal exist afterwards and no other file
changes; when it was present, the stage changes nothing at all, even if
the sheet or sheet-normal files had been deleted. -/
theorem fiber_stage_writes_iff (libs : Libs) (s t : St)
    (ht : fiberStage libs s = .ok t) :
    (s.fs.isFile fiberFileName = true → t = s) ∧
    (s.fs.isFile fiberFileName = false →
      t.fs.isFile fiberFileName = true ∧
      t.fs.isFile sheetFileName = true ∧
      t.fs.isFile sheetNormalFileName = true ∧
      ∀ n, n ≠ fiberFileName → n ≠ sheetFileName → n ≠ sheetNormalFileName →
        t.fs.read n = s.fs.read n) := by
  constructor
  · intro hyes
    rw [fiberStage_skip libs s hyes] at ht
    exact (Except.ok.inj ht).symm
  · intro hno
    obtain ⟨fb, sb, snb, mk, htt⟩ := fiberStage_run_inv libs s t hno ht
    subst htt
    refine ⟨?_, ?_, ?_, ?_⟩
    · rw [FS.isFile_write_ne _ _ _ _ (by decide),
          FS.isFile_write_ne _ _ _ _ (by decide)]
      exact FS.isFile_write_self _ _ _
    · rw [FS.isFile_write_ne _ _ _ _ (by decide)]
      exact FS.isFile_write_self _ _ _
    · exact FS.isFile_write_self _ _ _
    · intro n hn1 hn2 hn3
      rw [FS.read_write_ne _ _ _ _ hn3, FS.read_write_ne _ _ _ _ hn2,
          FS.read_write_ne _ _ _ _ hn1]

/-- Witness for C3 at concrete states and oracles. -/
theorem fiber_stage_writes_iff_witness :
    fiberStage libs0 stMshOnly = .ok tFib ∧
    tFib.fs.isFile sheetFileName = true ∧
    tFib.fs.isFile sheetNormalFileName = true :=
  ⟨by decide,
   ((fiber_stage_writes_iff libs0 stMshOnly tFib (by decide)).2 (by decide)).2.1,
   ((fiber_stage_writes_iff libs0 stMshOnly tFib (by decide)).2 (by decide)).2.2.1⟩

/-- Counterexample to C4 as stated: on `mshHet`, whose single cell
block carries per-cell tags `[20, 99]` against endocardial tag 20, the
extracted connectivity contains the cell `[3, 4, 5]` whose own tag is
99 — a cell the per-cell selection excludes — so the connectivity does
not consist of the matching cells only. -/
theorem connectivity_per_cell_counterexample :
    extractConnectivity mshHet "ENDO_LV" = .ok [[0, 1, 2], [3, 4, 5]] ∧
    specPerCellConnectivity mshHet 20 = [[0, 1, 2]] ∧
    [3, 4, 5] ∈ ([[0, 1, 2], [3, 4, 5]] : List (List Nat)) ∧
    [3, 4, 5] ∉ specPerCellConnectivity mshHet 20 :=
  ⟨by decide, by decide, by decide, by decide⟩

/-- Claim C4 (amended): under a successful extraction, the reduced
connectivity handed to the tree-growth library consists of exactly the
rows of those cell blocks whose first cell's physical-region tag
equals the ventricle's endocardial tag: whole blocks are selected or
dropped by their leading tag, so every cell of a selected block is
included even when its own per-cell tag differs. -/
theorem connectivity_blockwise_matching (msh : MeshioMesh) (fieldName : String)
    (arr : List Nat) (tag : Nat) (conn : List (List Nat))
    (hfd : dictGet msh.field_data fieldName = .ok arr)
    (h0 : arr.head? = some tag)
    (hok : extractConnectivity msh fieldName = .ok conn) :
    conn = specMatchingConnectivity msh tag :=
  extractConnectivity_spec msh fieldName arr tag conn hfd h0 hok

/-- Witness for the amended C4 at the concrete heterogeneous mesh. -/
theorem connectivity_blockwise_matching_witness :
    dictGet mshHet.field_data "ENDO_LV" = .ok [20, 2] ∧
    extractConnectivity mshHet "ENDO_LV" = .ok [[0, 1, 2], [3, 4, 5]] ∧
    [[0, 1, 2], [3, 4, 5]] = specMatchingConnectivity mshHet 20 :=
  ⟨by decide, by decide,
   connectivity_blockwise_matching mshHet "ENDO_LV" [20, 2] 20 [[0, 1, 2], [3, 4, 5]]
     (by decide) (by decide) (by decide)⟩

/-- Claim C5: if the ventricle's endocardial tag matches no cell block,
the conduction-tree stage fails with an error (`np.vstack` on an empty
list, or the `IndexError` from an empty tag array), which the `Except`
pipeline propagates, terminating the script instead of growing a tree
on an empty connectivity. -/
theorem tree_stage_empty_selection_error (libs : Libs) (cfg : TreeConfig)
    (s : St) (b : Bytes) (arr : List Nat) (tag : Nat)
    (hskip : s.fs.isFile cfg.treeFile = false)
    (hb : s.fs.read mshFileName = some b)
    (hfd : dictGet (libs.readMesh b).field_data cfg.fieldName = .ok arr)
    (h0 : arr.head? = some tag)
    (hnone : ∀ x ∈ (libs.readMesh b).cell_data_physical, x.head? ≠ some tag) :
    ∃ e, treeStage libs cfg s = .error e := by
  obtain ⟨e, he⟩ :=
    extractConnectivity_no_match_error (libs.readMesh b) cfg.fieldName arr tag hfd h0 hnone
  refine ⟨e, ?_⟩
  simp [treeStage, hskip, hb, treeCompute, he]

/-- Witness for C5 at the concrete no-match mesh. -/
theorem tree_stage_empty_selection_error_witness :
    stMshOnly.fs.isFile lvConfig.treeFile = false ∧
    (∃ e, treeStage libsNoMatch lvConfig stMshOnly = .error e) :=
  ⟨by decide,
   tree_stage_empty_selection_error libsNoMatch lvConfig stMshOnly mshBytes0 [20, 2] 20
     (by decide) (by decide) (by decide) (by decide) (by decide)⟩

/-- Claim C6: a successful nearest-vertex lookup returns the index of a
mesh vertex whose Euclidean distance (the square root of the squared
distance `dist2`) to the seed coordinate is minimal over all mesh
vertices. -/
theorem nearest_vertex_minimizes_distance (verts : List Vec3) (p : Vec3) (i : Nat)
    (h : nearestVertexIndex verts p = some i) :
    ∃ hi : i < verts.length, ∀ k : Fin verts.length,
      Real.sqrt ((dist2 (verts.get ⟨i, hi⟩) p : ℚ) : ℝ) ≤
        Real.sqrt ((dist2 (verts.get k) p : ℚ) : ℝ) := by
  obtain ⟨hi, hmin⟩ := nearestVertexIndex_spec verts p i h
  refine ⟨hi, fun k => ?_⟩
  exact Real.sqrt_le_sqrt (by exact_mod_cast hmin k)

/-- Witness for C6 at a concrete vertex list. -/
theorem nearest_vertex_minimizes_distance_witness :
    nearestVertexIndex vertsW seedW = some 0 ∧
    ∃ hi : 0 < vertsW.length, ∀ k : Fin vertsW.length,
      Real.sqrt ((dist2 (vertsW.get ⟨0, hi⟩) seedW : ℚ) : ℝ) ≤
        Real.sqrt ((dist2 (vertsW.get k) seedW : ℚ) : ℝ) :=
  ⟨by decide, nearest_vertex_minimizes_distance vertsW seedW 0 (by decide)⟩

/-- Counterexample to C7 as stated: `vertsB` is a permutation of
`vertsA`, yet for the same seed coordinate the nearest-vertex lookup
returns index 1 on `vertsA` and index 0 on `vertsB` — the returned
index is not invariant under permutations of the vertex array. -/
theorem nearest_vertex_perm_counterexample :
    vertsA.Perm vertsB ∧
    nearestVertexIndex vertsA seedW = some 1 ∧
    nearestVertexIndex vertsB seedW = some 0 := by
  refine ⟨List.Perm.swap _ _ _, ?_, ?_⟩
  · norm_num [nearestVertexIndex, argminPair, dist2, vertsA, seedW]
  · norm_num [nearestVertexIndex, argminPair, dist2, vertsB, seedW]

/-- Claim C7 (amended): the nearest-vertex lookup is a pure function of
the vertex list and the seed coordinate (deterministic), and for every
permutation of the vertex array the selected vertex lies at the same,
minimal, distance to the seed; the returned index itself depends on
the ordering. -/
theorem nearest_vertex_perm_distance (verts1 verts2 : List Vec3) (p : Vec3) (i j : Nat)
    (hperm : verts1.Perm verts2)
    (h1 : nearestVertexIndex verts1 p = some i)
    (h2 : nearestVertexIndex verts2 p = some j) :
    ∃ hi : i < verts1.length, ∃ hj : j < verts2.length,
      dist2 (verts1.get ⟨i, hi⟩) p = dist2 (verts2.get ⟨j, hj⟩) p := by
  obtain ⟨hi, hmin1⟩ := nearestVertexIndex_spec verts1 p i h1
  obtain ⟨hj, hmin2⟩ := nearestVertexIndex_spec verts2 p j h2
  refine ⟨hi, hj, ?_⟩
  have hv2 : verts2.get ⟨j, hj⟩ ∈ verts1 :=
    hperm.symm.subset (verts2.get_mem j hj)
  have hv1 : verts1.get ⟨i, hi⟩ ∈ verts2 :=
    hperm.subset (verts1.get_mem i hi)
  obtain ⟨k1, hk1⟩ := List.mem_iff_get.mp hv2
  obtain ⟨k2, hk2⟩ := List.mem_iff_get.mp hv1
  have hle1 : dist2 (verts1.get ⟨i, hi⟩) p ≤ dist2 (verts2.get ⟨j, hj⟩) p := by
    have hb := hmin1 k1
    rw [hk1] at hb
    exact hb
  have hle2 : dist2 (verts2.get ⟨j, hj⟩) p ≤ dist2 (verts1.get ⟨i, hi⟩) p := by
    have hb := hmin2 k2
    rw [hk2] at hb
    exact hb
  exact le_antisymm hle1 hle2

/-- Witness for the amended C7 at a concrete list and permutation. -/
theorem nearest_vertex_perm_distance_witness :
    vertsW.Perm vertsW ∧ nearestVertexIndex vertsW seedW = some 0 ∧
    (∃ hi : 0 < vertsW.length, ∃ hj : 0 < vertsW.length,
      dist2 (vertsW.get ⟨0, hi⟩) seedW = dist2 (vertsW.get ⟨0, hj⟩) seedW) :=
  ⟨List.Perm.refl _, by decide,
   nearest_vertex_perm_distance vertsW vertsW seedW 0 0 (List.Perm.refl _)
     (by decide) (by decide)⟩

/-- Counterexample to C8 as stated: on an empty data directory the mesh
stage invokes the generator with the sixteen-entry shape-parameter list
(plus the characteristic length), not with eleven shape parameters. -/
theorem mesh_stage_param_count_counterexample :
    (meshStage libs0 stEmpty).log =
      [Event.createMesh meshCharLength meshShapeParams] ∧
    meshShapeParams.length = 16 ∧ ¬ meshShapeParams.length = 11 :=
  ⟨rfl, by decide, by decide⟩

/-- Claim C8 (amended): the mesh stage invokes the external mesh
generator with exactly sixteen geometric shape parameters plus one
target characteristic length, and is skipped entirely when
`data/biv_ellipsoid.msh` already exists. -/
theorem mesh_stage_contract (libs : Libs) (s : St)
    (h : s.fs.isFile mshFileName = false) :
    (meshStage libs s).log =
      s.log ++ [Event.createMesh meshCharLength meshShapeParams] ∧
    meshShapeParams.length = 16 ∧
    ∀ s2 : St, s2.fs.isFile mshFileName = true → meshStage libs s2 = s2 := by
  refine ⟨?_, by decide, fun s2 h2 => meshStage_skip libs s2 h2⟩
  simp [meshStage, h]

/-- Witness for the amended C8 at the empty directory. -/
theorem mesh_stage_contract_witness :
    stEmpty.fs.isFile mshFileName = false ∧
    ((meshStage libs0 stEmpty).log =
       stEmpty.log ++ [Event.createMesh meshCharLength meshShapeParams] ∧
     meshShapeParams.length = 16 ∧
     ∀ s2 : St, s2.fs.isFile mshFileName = true → meshStage libs0 s2 = s2) :=
  ⟨by decide, mesh_stage_contract libs0 stEmpty (by decide)⟩

/-- Claim C9: when at the start of a run every output file exists
except `data/lv_tree.vtu`, a successful run writes exactly that file:
the LV tree file exists afterwards and every other file's bytes are
unchanged (mesh, fiber, sheet, sheet-normal and RV tree included). -/
theorem run_regenerates_only_lv_tree (libs : Libs) (fs : FS) (s3 : St)
    (hm : fs.isFile mshFileName = true)
    (hf : fs.isFile fiberFileName = true)
    (hs : fs.isFile sheetFileName = true)
    (hsn : fs.isFile sheetNormalFileName = true)
    (hrv : fs.isFile rvTreeFileName = true)
    (hlv : fs.isFile lvTreeFileName = false)
    (hrun : runScript libs fs = .ok s3) :
    s3.fs.isFile lvTreeFileName = true ∧
    ∀ n, n ≠ lvTreeFileName → s3.fs.read n = fs.read n := by
  have e1 := meshStage_skip libs { fs := fs, rng := none, log := [] } hm
  have e2 := fiberStage_skip libs { fs := fs, rng := none, log := [] } hf
  simp only [runScript, e1, e2] at hrun
  cases hlvrun : treeStage libs lvConfig { fs := fs, rng := none, log := [] } with
  | error e => simp [hlvrun] at hrun
  | ok t =>
    simp only [hlvrun] at hrun
    obtain ⟨b, tb, hbb, hcc, htt⟩ := treeStage_run_inv libs lvConfig
      { fs := fs, rng := none, log := [] } t hlv hlvrun
    have hname : lvConfig.param.filename ++ ".vtu" = lvTreeFileName := by decide
    have hrvskip : treeStage libs rvConfig t = .ok t := by
      apply treeStage_skip
      rw [htt]
      show (FS.write fs (lvConfig.param.filename ++ ".vtu") tb).isFile rvTreeFileName = true
      rw [FS.isFile_write_ne _ _ _ _ (by decide)]
      exact hrv
    rw [hrvskip] at hrun
    have hs3 : t = s3 := Except.ok.inj hrun
    subst hs3
    rw [htt]
    constructor
    · show (FS.write fs (lvConfig.param.filename ++ ".vtu") tb).isFile lvTreeFileName = true
      rw [← hname]
      exact FS.isFile_write_self _ _ _
    · intro n hn
      show (FS.write fs (lvConfig.param.filename ++ ".vtu") tb).read n = fs.read n
      apply FS.read_write_ne
      rw [hname]
      exact hn

/-- Witness for C9 at a concrete filesystem. -/
theorem run_regenerates_only_lv_tree_witness :
    runScript libs0 fsNoLv = .ok s3NoLv ∧
    s3NoLv.fs.isFile lvTreeFileName = true ∧
    s3NoLv.fs.read rvTreeFileName = fsNoLv.read rvTreeFileName :=
  ⟨by decide,
   (run_regenerates_only_lv_tree libs0 fsNoLv s3NoLv (by decide) (by decide)
      (by decide) (by decide) (by decide) (by decide) (by decide)).1,
   (run_regenerates_only_lv_tree libs0 fsNoLv s3NoLv (by decide) (by decide)
      (by decide) (by decide) (by decide) (by decide) (by decide)).2
     rvTreeFileName (by decide)⟩

/-- Claim C10: the RV stage re-reads the mesh file and reseeds the RNG
with 1234 before growing, so no state from the LV stage flows into the
RV result: two successful runs on filesystems holding the same mesh
bytes, one in which the LV stage executes (LV tree absent) and one in
which it is skipped (LV tree present), write identical
`data/rv_tree.vtu` contents. -/
theorem rv_tree_independent_of_lv_stage (libs : Libs) (fs1 fs2 : FS) (u1 u2 : St)
    (hmm : fs1.read mshFileName = fs2.read mshFileName)
    (hm1 : fs1.isFile mshFileName = true) (hm2 : fs2.isFile mshFileName = true)
    (hf1 : fs1.isFile fiberFileName = true) (hf2 : fs2.isFile fiberFileName = true)
    (hlv1 : fs1.isFile lvTreeFileName = false) (hlv2 : fs2.isFile lvTreeFileName = true)
    (hrv1 : fs1.isFile rvTreeFileName = false) (hrv2 : fs2.isFile rvTreeFileName = false)
    (r1 : runScript libs fs1 = .ok u1) (r2 : runScript libs fs2 = .ok u2) :
    u1.fs.read rvTreeFileName = u2.fs.read rvTreeFileName ∧
    ∃ tb, u1.fs.read rvTreeFileName = some tb := by
  have e11 := meshStage_skip libs { fs := fs1, rng := none, log := [] } hm1
  have e12 := fiberStage_skip libs { fs := fs1, rng := none, log := [] } hf1
  simp only [runScript, e11, e12] at r1
  cases hlvrun : treeStage libs lvConfig { fs := fs1, rng := none, log := [] } with
  | error e => simp [hlvrun] at r1
  | ok t1 =>
    simp only [hlvrun] at r1
    obtain ⟨bl, tbl, hbl, hcl, htl⟩ := treeStage_run_inv libs lvConfig
      { fs := fs1, rng := none, log := [] } t1 hlv1 hlvrun
    have ht1msh : t1.fs.read mshFileName = some bl := by
      rw [htl]
      show (FS.write fs1 (lvConfig.param.filename ++ ".vtu") tbl).read mshFileName = some bl
      rw [FS.read_write_ne _ _ _ _ (by decide)]
      exact hbl
    have ht1rv : t1.fs.isFile rvTreeFileName = false := by
      rw [htl]
      show (FS.write fs1 (lvConfig.param.filename ++ ".vtu") tbl).isFile rvTreeFileName = false
      rw [FS.isFile_write_ne _ _ _ _ (by decide)]
      exact hrv1
    obtain ⟨b1, tb1, hb1, hc1, ht1⟩ := treeStage_run_inv libs rvConfig t1 u1 ht1rv r1
    have e21 := meshStage_skip libs { fs := fs2, rng := none, log := [] } hm2
    have e22 := fiberStage_skip libs { fs := fs2, rng := none, log := [] } hf2
    have e23 := treeStage_skip libs lvConfig { fs := fs2, rng := none, log := [] } hlv2
    simp only [runScript, e21, e22, e23] at r2
    obtain ⟨b2, tb2, hb2, hc2, ht2⟩ := treeStage_run_inv libs rvConfig
      { fs := fs2, rng := none, log := [] } u2 hrv2 r2
    have hfs2read : fs2.read mshFileName = some b2 := hb2
    have hfs1read : fs1.read mshFileName = some bl := hbl
    have hblb1 : bl = b1 := by
      rw [ht1msh] at hb1
      exact Option.some.inj hb1
    have hb12 : b1 = b2 := by
      rw [hfs1read, hfs2read] at hmm
      exact hblb1 ▸ Option.some.inj hmm
    subst hb12
    have htb : tb1 = tb2 := by
      rw [hc2] at hc1
      exact (Except.ok.inj hc1).symm
    have hnm : rvTreeFileName = rvConfig.param.filename ++ ".vtu" := by decide
    simp only [ht1, ht2, hnm]
    constructor
    · rw [FS.read_write_self, FS.read_write_self, htb]
    · exact ⟨tb1, FS.read_write_self _ _ _⟩

/-- Witness for C10 at concrete filesystems and oracles. -/
theorem rv_tree_independent_of_lv_stage_witness :
    runScript libs0 fs1NoTrees = .ok u1Both ∧
    runScript libs0 fs2LvOnly = .ok u2RvOnly ∧
    (u1Both.fs.read rvTreeFileName = u2RvOnly.fs.read rvTreeFileName ∧
     ∃ tb, u1Both.fs.read rvTreeFileName = some tb) :=
  ⟨by decide, by decide,
   rv_tree_independent_of_lv_stage libs0 fs1NoTrees fs2LvOnly u1Both u2RvOnly
     (by decide) (by decide) (by decide) (by decide) (by decide) (by decide)
     (by decide) (by decide) (by decide) (by decide) (by decide)⟩
